import Mathlib

/-!
Verification of the GoldMetrics backend's event-bus and HTTP-client layers.

Shallow embedding of the relevant parts of
`src/backend/app/infrastructure/adapters/event_bus.py` and
`src/backend/app/infrastructure/adapters/api.py`.

Modelling conventions:
- Redis (the idempotency store) is modelled as the list of event ids currently
  stored; the 30-day TTL is elided because every property considered ranges
  over a window far shorter than the expiry.
- A delivered message body is modelled as one of: bytes that are not valid
  UTF-8 (`message.body.decode()` raises `UnicodeDecodeError`, which is not a
  `json.JSONDecodeError` and so lands in the generic `except Exception`
  branch), bytes that decode but are not valid JSON (`json.loads` raises
  `JSONDecodeError`), or a JSON object with string-valued fields;
  `dict.get("event_id")` is the association-list lookup, and Python
  truthiness of the result (`if not event_id:`) is `none` or the empty
  string.
- The registered handler is an arbitrary function from the parsed payload to
  `Except Unit Unit`; `.error ()` models the handler raising an exception.
  Failures of the Redis calls inside `on_message` (which land in the generic
  `except Exception` branch) are modelled by two boolean fault flags.
- `aio_pika`'s `message.process()` context manager is entered with its
  defaults (`ignore_processed=False`).  On normal exit of the block it calls
  `message.ack()`; if the block already settled the message with an explicit
  `reject`, that `ack` raises `MessageProcessError`, which escapes
  `on_message`.  When an exception escapes the block, the context manager
  rejects (requeue=False) only if the message is not yet settled, and the
  exception propagates.  The broker-visible disposition recorded in the
  trace is the first settlement issued; the failed exit `ack` raises before
  anything reaches the broker, so it appears in the `escape` field, not as a
  trace step.
- Log calls are recorded (message text only; `%s` format arguments elided) so
  that the logging clauses of the spec are expressible.
-/

namespace GoldMetrics

/-! ## Event store: `RedisEventStoreAdapter` (event_bus.py, lines 28-127) -/

/-- Embedding of `RedisEventStoreAdapter.is_processed`: the Redis keyspace is
the list of stored event ids and `redis.exists(event_id) == 1` is membership. -/
def is_processed (store : List String) (event_id : String) : Bool :=
  store.contains event_id

/-- Embedding of `RedisEventStoreAdapter.mark_as_processed`:
`redis.set(event_id, "processed", ex=2592000)` adds the key (TTL elided). -/
def mark_as_processed (store : List String) (event_id : String) : List String :=
  event_id :: store

/-! ## `RabbitMQEventBusAdapter.subscribe`'s internal `on_message`
(event_bus.py, lines 260-287) -/

/-- A delivered message body: bytes that are not valid UTF-8
(`message.body.decode()` raises `UnicodeDecodeError`), bytes that decode
but are not valid JSON (`json.loads` raises `JSONDecodeError`), or a JSON
object with string-valued fields. -/
inductive MessageBody where
  | undecodable
  | malformed
  | obj (fields : List (String × String))
deriving DecidableEq

/-- Observable processing steps of one delivery, in the order they are
performed by `on_message` (broker settlements `ack`/`reject` included). -/
inductive Step where
  | parse
  | dedupeCheck
  | handlerInvoke
  | markProcessed
  | ack
  | reject (requeue : Bool)
deriving DecidableEq

/-- What escapes `on_message` when this delivery finishes: nothing, the
caught exception re-raised by the `except json.JSONDecodeError` branch, or
the `MessageProcessError` raised by `message.process()`'s exit `ack` on a
message the block already rejected (the default `ignore_processed=False`
behaviour of `aio_pika`). -/
inductive Escape where
  | none
  | reRaised
  | messageProcessError
deriving DecidableEq

/-- Result of running `on_message` on one delivery: the ordered trace of
steps, the store contents afterwards, what (if anything) escapes
`on_message` itself, and the log messages emitted by `on_message`. -/
structure OnMessageResult where
  trace : List Step
  store : List String
  escape : Escape
  logs : List String
deriving DecidableEq

/-- Embedding of the internal `on_message` coroutine installed by
`RabbitMQEventBusAdapter.subscribe` (event_bus.py, lines 260-287), under
the default semantics of `message.process()` (see the module conventions).

Control flow, mirrored branch by branch:
- invalid UTF-8 body: `message.body.decode()` raises `UnicodeDecodeError`,
  caught by the generic `except Exception` branch: log, reject with
  requeue, no re-raise; the block then exits normally and the exit `ack` on
  the already-rejected message raises `MessageProcessError`;
- malformed JSON: the `except json.JSONDecodeError` branch logs, rejects
  without requeue, and re-raises; the exit path sees the exception but the
  message is already settled, so the re-raised exception escapes;
- missing or empty `event_id`: log error, reject without requeue, return;
  the exit `ack` raises `MessageProcessError`;
- `is_processed` raises (fault flag): generic branch: log, reject with
  requeue, no re-raise; the exit `ack` raises `MessageProcessError`;
- duplicate event: log and return; the exit acknowledges; nothing escapes;
- handler raises: generic branch, as for store faults — the handler's own
  exception is absorbed, only the exit `MessageProcessError` escapes;
- `mark_as_processed` raises (fault flag): same generic branch (the Redis
  write failed, so the store is unchanged);
- success: handler ran, event marked processed, the exit acknowledges;
  nothing escapes. -/
def on_message (store : List String) (isProcessedFails markFails : Bool)
    (handler : List (String × String) → Except Unit Unit)
    (body : MessageBody) : OnMessageResult :=
  match body with
  | .undecodable =>
      { trace := [.reject true], store := store,
        escape := .messageProcessError,
        logs := ["Error processing message."] }
  | .malformed =>
      { trace := [.reject false], store := store, escape := .reRaised,
        logs := ["Invalid JSON in message."] }
  | .obj fields =>
      let event_id := (List.lookup "event_id" fields).getD ""
      if event_id = "" then
        { trace := [.parse, .reject false], store := store,
          escape := .messageProcessError,
          logs := ["Received event without event_id. Rejecting message."] }
      else if isProcessedFails then
        { trace := [.parse, .dedupeCheck, .reject true], store := store,
          escape := .messageProcessError,
          logs := ["Error processing message."] }
      else if is_processed store event_id then
        { trace := [.parse, .dedupeCheck, .ack], store := store,
          escape := .none,
          logs := ["Duplicate event received. Skipping processing."] }
      else
        match handler fields with
        | .error _ =>
            { trace := [.parse, .dedupeCheck, .handlerInvoke, .reject true],
              store := store, escape := .messageProcessError,
              logs := ["Error processing message."] }
        | .ok _ =>
            if markFails then
              { trace := [.parse, .dedupeCheck, .handlerInvoke, .markProcessed,
                          .reject true],
                store := store, escape := .messageProcessError,
                logs := ["Error processing message."] }
            else
              { trace := [.parse, .dedupeCheck, .handlerInvoke, .markProcessed,
                          .ack],
                store := mark_as_processed store event_id, escape := .none,
                logs := ["Event processed and marked as processed."] }

/-- Number of times the registered handler was invoked during a delivery. -/
def handlerCount (t : List Step) : Nat :=
  t.countP (fun s => s = Step.handlerInvoke)

/-- Position of a step in the canonical processing order
parse, dedupe-check, handler, mark-processed, settle. -/
def stepRank : Step → Nat
  | .parse => 0
  | .dedupeCheck => 1
  | .handlerInvoke => 2
  | .markProcessed => 3
  | .ack => 4
  | .reject _ => 4

/-- Checks that every `markProcessed` in the trace is preceded by a
`handlerInvoke` (the `seen` flag records whether one has occurred yet). -/
def marksAfterHandler (seen : Bool) : List Step → Bool
  | [] => true
  | .handlerInvoke :: rest => marksAfterHandler true rest
  | .markProcessed :: rest => seen && marksAfterHandler seen rest
  | _ :: rest => marksAfterHandler seen rest

/-- Checks that no `markProcessed` occurs after an `ack` in the trace
(equivalently: the acknowledgement never precedes the marking). -/
def noMarkAfterAck : List Step → Bool
  | [] => true
  | .ack :: rest => !(rest.contains Step.markProcessed) && noMarkAfterAck rest
  | _ :: rest => noMarkAfterAck rest

/-! ## `RabbitMQEventBusAdapter.subscribe`'s registration step
(event_bus.py, lines 289-295) -/

/-- Embedding of the tail of `RabbitMQEventBusAdapter.subscribe`.  `setup`
models the outcome of the preceding `connect` / `declare_queue` / `bind`
calls (an `AMQPError` there propagates before the `try` block is reached);
`consume` models `queue.consume(on_message)`.  Broker errors are identified
by a natural number; handlers are identified abstractly by a natural number
since only the registered pair matters here.  On a consume failure the
`except aio_pika.exceptions.AMQPError` branch logs and re-raises, so
`self.subscriptions.append((event_name, handler))` is never executed. -/
def subscribe (setup consume : Except Nat Unit)
    (subscriptions : List (String × Nat)) (event_name : String)
    (handler : Nat) : Except Nat Unit × List (String × Nat) :=
  match setup with
  | .error e => (.error e, subscriptions)
  | .ok _ =>
      match consume with
      | .error e => (.error e, subscriptions)
      | .ok _ => (.ok (), subscriptions ++ [(event_name, handler)])

/-! ## `EODHDAPIClient.__init__` (api.py, lines 238-253) -/

/-- Python exceptions raised by the `EODHDAPIClient` constructor. -/
inductive PyError where
  | valueError
deriving DecidableEq

/-- Embedding of `EODHDAPIClient.__init__`'s api_key validation.  `none`
models `api_key=None` — the "missing" key of the constructor docstring
("Raises ValueError: If the API key is missing or empty"); a call omitting
the parameter entirely never reaches the constructor body (Python raises
`TypeError` at the call site), so it is outside this function's behaviour.
`if not api_key:` is true for `None` and for the empty string, in which
case `ValueError` is raised; otherwise the key is stored unchanged in the
`api_key` attribute (the returned value). -/
def EODHDAPIClient_init (api_key : Option String) : Except PyError String :=
  match api_key with
  | none => .error .valueError
  | some s => if s = "" then .error .valueError else .ok s

/-! ## `AIOHTTPAPIClientAdapter` retrying request (api.py, lines 116-188)

The retry behaviour is that of the `tenacity` decorator built in
`__init__`:

  retry(retry=retry_if_exception(lambda error: isinstance(error, aiohttp.ClientError)),
        stop=stop_after_attempt(max_retries),
        wait=wait_exponential(multiplier=backoff_start),
        before_sleep=before_sleep_log(log, 30))

modelled faithfully: attempts are numbered from 1; a successful call
returns; an exception not matching the predicate propagates directly; a
matching exception is retried until `stop_after_attempt` fires (after
`max_retries` attempts), at which point `tenacity.RetryError` is raised
wrapping the last attempt's exception; before each sleep the retry is
logged, and the sleep after failed attempt `n` lasts
`multiplier * 2 ^ (n - 1)` seconds (tenacity's `wait_exponential`).
The rate-limiter acquisition at the top of `_request` is orthogonal to the
retry accounting and is not modelled here. -/

/-- Exceptions arising from one underlying HTTP attempt.
`clientResponseError` is `aiohttp.ClientResponseError` (carrying the HTTP
status), `transportError` is any other `aiohttp.ClientError` (the `info`
field distinguishes distinct exception objects), and `otherError` is an
exception outside the `aiohttp.ClientError` hierarchy.  Note that
`aiohttp.ClientResponseError` is a subclass of `aiohttp.ClientError`. -/
inductive ReqError where
  | clientResponseError (status : Nat)
  | transportError (info : Nat)
  | otherError (info : Nat)
deriving DecidableEq

/-- The retry predicate `lambda error: isinstance(error, aiohttp.ClientError)`:
true for `ClientResponseError` (a `ClientError` subclass) and for transport
errors, false for anything else. -/
def isClientError : ReqError → Bool
  | .clientResponseError _ => true
  | .transportError _ => true
  | .otherError _ => false

/-- Outcome of one `self.session.request(...)` call: a response with a
status and (already parsed) body, or a raised `aiohttp.ClientError`. -/
inductive HTTPOutcome (α : Type) where
  | response (status : Nat) (body : α)
  | transportFailure (info : Nat)

/-- Embedding of the body of `AIOHTTPAPIClientAdapter._request` for one
attempt: `response.raise_for_status()` raises `aiohttp.ClientResponseError`
with the response's status exactly when `status >= 400`; otherwise the
parsed JSON body is returned.  A raised `aiohttp.ClientError` propagates.
(The two `except` clauses only log and re-raise.) -/
def request_once {α : Type} (o : HTTPOutcome α) : Except ReqError α :=
  match o with
  | .response status body =>
      if 400 ≤ status then .error (.clientResponseError status) else .ok body
  | .transportFailure info => .error (.transportError info)

/-- Observable events of the retry loop: an underlying attempt with its
number, the `before_sleep_log` record for a retry, and a sleep with its
duration in seconds. -/
inductive RetryEvent where
  | attempt (n : Nat)
  | logRetry (n : Nat)
  | sleep (w : ℚ)
deriving DecidableEq

/-- Final outcome of the retry-wrapped call: a returned value, a
`tenacity.RetryError` wrapping the last attempt's exception (retry budget
exhausted), or a non-retryable exception propagating directly. -/
inductive RetryResult (α : Type) where
  | ok (a : α)
  | retryError (last : ReqError)
  | raised (e : ReqError)
deriving DecidableEq

/-- tenacity's `wait_exponential(multiplier)` value after failed attempt
number `attemptNumber`: `multiplier * 2 ^ (attemptNumber - 1)`. -/
def wait_exponential (multiplier : ℚ) (attemptNumber : Nat) : ℚ :=
  multiplier * 2 ^ (attemptNumber - 1)

/-- The tenacity retry loop.  `outcomes i` is the result of the `i`-th
underlying `_request` attempt (1-indexed); `n` is the current attempt
number and `remaining` the number of further attempts the stop condition
still allows (`max_retries - n`), so `remaining = 0` means
`stop_after_attempt` fires after this attempt. -/
def retryLoop {α : Type} (backoff : ℚ) (outcomes : Nat → Except ReqError α) :
    Nat → Nat → RetryResult α × List RetryEvent
  | n, 0 =>
      (match outcomes n with
       | .ok a => (.ok a, [.attempt n])
       | .error e =>
           if isClientError e then (.retryError e, [.attempt n])
           else (.raised e, [.attempt n]))
  | n, r + 1 =>
      (match outcomes n with
       | .ok a => (.ok a, [.attempt n])
       | .error e =>
           if isClientError e then
             let rest := retryLoop backoff outcomes (n + 1) r
             (rest.1,
              .attempt n :: .logRetry n :: .sleep (wait_exponential backoff n)
                :: rest.2)
           else (.raised e, [.attempt n]))

/-- Embedding of the `request` property (the retry-configured `_request`):
attempts start at 1 and `stop_after_attempt(max_retries)` allows
`max_retries - 1` further attempts after the first (with `max_retries = 0`,
tenacity still performs the first attempt and then stops). -/
def request {α : Type} (max_retries : Nat) (backoff_start : ℚ)
    (outcomes : Nat → Except ReqError α) : RetryResult α × List RetryEvent :=
  retryLoop backoff_start outcomes 1 (max_retries - 1)

/-- Number of underlying attempts recorded in a retry trace. -/
def attemptCount (t : List RetryEvent) : Nat :=
  t.countP (fun e => match e with | .attempt _ => true | _ => false)

/-- The duration of the sleep immediately preceding attempt `k` in a retry
trace, if any. -/
def sleepBefore (k : Nat) : List RetryEvent → Option ℚ
  | [] => none
  | [_] => none
  | e1 :: e2 :: rest =>
      match e1, e2 with
      | .sleep w, .attempt j =>
          if j = k then some w else sleepBefore k (e2 :: rest)
      | _, _ => sleepBefore k (e2 :: rest)

/-- Checks that every sleep in a retry trace is immediately preceded by a
`before_sleep_log` record. -/
def sleepsLogged : List RetryEvent → Bool
  | [] => true
  | .sleep _ :: _ => false
  | .logRetry _ :: .sleep _ :: rest => sleepsLogged rest
  | _ :: rest => sleepsLogged rest

/-! ## Helper lemmas about the retry loop -/

/-- Every retry trace opens with the attempt it starts at. -/
theorem retryLoop_head {α : Type} (b : ℚ) (o : Nat → Except ReqError α) :
    ∀ r n, ∃ t, (retryLoop b o n r).2 = .attempt n :: t := by
  intro r n
  cases r with
  | zero =>
      cases ho : o n with
      | ok a => exact ⟨[], by simp [retryLoop, ho]⟩
      | error e =>
          by_cases hce : isClientError e
          · exact ⟨[], by simp [retryLoop, ho, hce]⟩
          · exact ⟨[], by simp [retryLoop, ho, hce]⟩
  | succ r' =>
      cases ho : o n with
      | ok a => exact ⟨[], by simp [retryLoop, ho]⟩
      | error e =>
          by_cases hce : isClientError e
          · refine ⟨.logRetry n :: .sleep (wait_exponential b n)
              :: (retryLoop b o (n + 1) r').2, ?_⟩
            simp [retryLoop, ho, hce]
          · exact ⟨[], by simp [retryLoop, ho, hce]⟩

/-- If every attempt in the window raises a retryable error, the loop ends in
a `RetryError` wrapping the error of the final attempt, after `r + 1`
underlying attempts. -/
theorem retryLoop_all_fail {α : Type} (b : ℚ) (o : Nat → Except ReqError α)
    (errs : Nat → ReqError) :
    ∀ r n,
    (∀ i, n ≤ i → i ≤ n + r →
      o i = .error (errs i) ∧ isClientError (errs i) = true) →
    (retryLoop b o n r).1 = .retryError (errs (n + r)) ∧
    attemptCount (retryLoop b o n r).2 = r + 1 := by
  intro r
  induction r with
  | zero =>
      intro n h
      obtain ⟨ho, hce⟩ := h n le_rfl (by omega)
      simp [retryLoop, ho, hce, attemptCount]
  | succ r ih =>
      intro n h
      obtain ⟨ho, hce⟩ := h n le_rfl (by omega)
      obtain ⟨hres, hcount⟩ := ih (n + 1) (fun i h1 h2 => h i (by omega) (by omega))
      have hidx : n + 1 + r = n + (r + 1) := by omega
      rw [hidx] at hres
      refine ⟨?_, ?_⟩
      · simp [retryLoop, ho, hce, hres]
      · simp [retryLoop, ho, hce, attemptCount, List.countP_cons] at hcount ⊢
        omega

/-- If the first `k` attempts (from `n`) raise retryable errors and attempt
`n + k` succeeds within the budget, the loop returns the success after
exactly `k + 1` underlying attempts. -/
theorem retryLoop_succeeds {α : Type} (b : ℚ) (o : Nat → Except ReqError α)
    (v : α) :
    ∀ k r n, k ≤ r →
    (∀ i, n ≤ i → i < n + k → ∃ e, o i = .error e ∧ isClientError e = true) →
    o (n + k) = .ok v →
    (retryLoop b o n r).1 = .ok v ∧
    attemptCount (retryLoop b o n r).2 = k + 1 := by
  intro k
  induction k with
  | zero =>
      intro r n _ _ hok
      have ho : o n = .ok v := by simpa using hok
      cases r with
      | zero => simp [retryLoop, ho, attemptCount]
      | succ r' => simp [retryLoop, ho, attemptCount]
  | succ k ih =>
      intro r n hkr hfail hok
      obtain ⟨e, ho, hce⟩ := hfail n le_rfl (by omega)
      obtain ⟨r', rfl⟩ : ∃ r', r = r' + 1 := ⟨r - 1, by omega⟩
      have hok' : o (n + 1 + k) = .ok v := by
        rw [show n + 1 + k = n + (k + 1) by omega]; exact hok
      obtain ⟨hres, hcount⟩ :=
        ih r' (n + 1) (by omega)
          (fun i h1 h2 => hfail i (by omega) (by omega)) hok'
      refine ⟨?_, ?_⟩
      · simp [retryLoop, ho, hce, hres]
      · simp [retryLoop, ho, hce, attemptCount, List.countP_cons] at hcount ⊢
        omega

/-- If all attempts before attempt `k` raise retryable errors and attempt
`k` lies within the budget, the sleep immediately preceding attempt `k` is
tenacity's `wait_exponential` value for the previous (failed) attempt. -/
theorem retryLoop_sleepBefore {α : Type} (b : ℚ) (o : Nat → Except ReqError α) :
    ∀ r n k, n < k → k ≤ n + r →
    (∀ i, n ≤ i → i < k → ∃ e, o i = .error e ∧ isClientError e = true) →
    sleepBefore k (retryLoop b o n r).2 = some (wait_exponential b (k - 1)) := by
  intro r
  induction r with
  | zero => intro n k h1 h2 _; omega
  | succ r ih =>
      intro n k h1 h2 hfail
      obtain ⟨e, ho, hce⟩ := hfail n le_rfl h1
      obtain ⟨t, ht⟩ := retryLoop_head b o r (n + 1)
      by_cases hk : n + 1 = k
      · subst hk
        have hk1 : n + 1 - 1 = n := by omega
        simp [retryLoop, ho, hce, ht, sleepBefore, hk1]
      · have hrec := ih (n + 1) k (by omega) (by omega)
          (fun i hi1 hi2 => hfail i (by omega) hi2)
        rw [ht] at hrec
        simp [retryLoop, ho, hce, ht, sleepBefore, hk, hrec]

/-- In every retry trace, each sleep is immediately preceded by the
`before_sleep_log` record for the retry. -/
theorem retryLoop_sleepsLogged {α : Type} (b : ℚ)
    (o : Nat → Except ReqError α) :
    ∀ r n, sleepsLogged (retryLoop b o n r).2 = true := by
  intro r
  induction r with
  | zero =>
      intro n
      cases ho : o n with
      | ok a => simp [retryLoop, ho, sleepsLogged]
      | error e =>
          by_cases hce : isClientError e
          · simp [retryLoop, ho, hce, sleepsLogged]
          · simp [retryLoop, ho, hce, sleepsLogged]
  | succ r ih =>
      intro n
      cases ho : o n with
      | ok a => simp [retryLoop, ho, sleepsLogged]
      | error e =>
          by_cases hce : isClientError e
          · simp [retryLoop, ho, hce, sleepsLogged, ih (n + 1)]
          · simp [retryLoop, ho, hce, sleepsLogged]

/-! ## Claim theorems -/

/-- Claim C1: for every two deliveries of messages carrying the same
`event_id` to the internal message handler installed by
`RabbitMQEventBusAdapter.subscribe`, the registered handler is invoked
exactly once: on the second delivery, `is_processed(event_id)` returns true,
the message is acknowledged, and the handler is not invoked. -/
theorem idempotent_delivery
    (store : List String) (fields fields2 : List (String × String))
    (handler : List (String × String) → Except Unit Unit) (eid : String)
    (h1 : List.lookup "event_id" fields = some eid)
    (h2 : List.lookup "event_id" fields2 = some eid)
    (hne : eid ≠ "")
    (hnew : is_processed store eid = false)
    (hok : handler fields = .ok ()) :
    handlerCount (on_message store false false handler (.obj fields)).trace +
      handlerCount (on_message
        (on_message store false false handler (.obj fields)).store
        false false handler (.obj fields2)).trace = 1 ∧
    is_processed (on_message store false false handler (.obj fields)).store
      eid = true ∧
    Step.ack ∈ (on_message
        (on_message store false false handler (.obj fields)).store
        false false handler (.obj fields2)).trace ∧
    handlerCount (on_message
        (on_message store false false handler (.obj fields)).store
        false false handler (.obj fields2)).trace = 0 := by
  have htr1 : (on_message store false false handler (.obj fields)).trace =
      [.parse, .dedupeCheck, .handlerInvoke, .markProcessed, .ack] := by
    simp [on_message, h1, hne, hnew, hok]
  have hst1 : (on_message store false false handler (.obj fields)).store =
      mark_as_processed store eid := by
    simp [on_message, h1, hne, hnew, hok]
  have hproc : is_processed (mark_as_processed store eid) eid = true := by
    simp [is_processed, mark_as_processed]
  have htr2 : (on_message (mark_as_processed store eid) false false handler
      (.obj fields2)).trace = [.parse, .dedupeCheck, .ack] := by
    simp [on_message, h2, hne, hproc]
  rw [htr1, hst1, htr2]
  exact ⟨by decide, hproc, by decide, by decide⟩

/-- Witness for C1 at a concrete two-delivery run. -/
theorem idempotent_delivery_witness :
    handlerCount (on_message [] false false (fun _ => .ok ())
      (.obj [("event_id", "e1")])).trace +
      handlerCount (on_message
        (on_message [] false false (fun _ => .ok ())
          (.obj [("event_id", "e1")])).store
        false false (fun _ => .ok ()) (.obj [("event_id", "e1")])).trace = 1 ∧
    is_processed (on_message [] false false (fun _ => .ok ())
      (.obj [("event_id", "e1")])).store "e1" = true ∧
    Step.ack ∈ (on_message
        (on_message [] false false (fun _ => .ok ())
          (.obj [("event_id", "e1")])).store
        false false (fun _ => .ok ()) (.obj [("event_id", "e1")])).trace ∧
    handlerCount (on_message
        (on_message [] false false (fun _ => .ok ())
          (.obj [("event_id", "e1")])).store
        false false (fun _ => .ok ()) (.obj [("event_id", "e1")])).trace = 0 :=
  idempotent_delivery [] [("event_id", "e1")] [("event_id", "e1")]
    (fun _ => .ok ()) "e1" rfl rfl (by decide) rfl rfl

/-- Claim C6: for every delivered message, the processing steps occur
strictly sequentially in the order parse, dedupe-check, handler invocation,
mark-as-processed, acknowledge; `mark_as_processed` is never called unless
the handler first completed successfully for that message, and the
acknowledgement never precedes the marking. -/
theorem on_message_sequential
    (store : List String) (ipf mf : Bool)
    (handler : List (String × String) → Except Unit Unit)
    (body : MessageBody) :
    List.Chain' (fun a b => stepRank a < stepRank b)
      (on_message store ipf mf handler body).trace ∧
    marksAfterHandler false (on_message store ipf mf handler body).trace
      = true ∧
    noMarkAfterAck (on_message store ipf mf handler body).trace = true ∧
    (Step.markProcessed ∈ (on_message store ipf mf handler body).trace →
      ∃ fields, body = .obj fields ∧ handler fields = .ok ()) := by
  cases body with
  | undecodable =>
      have htr : (on_message store ipf mf handler .undecodable).trace =
          [.reject true] := rfl
      rw [htr]
      exact ⟨by norm_num [List.chain'_cons, stepRank], by decide, by decide,
        fun hmem => absurd hmem (by decide)⟩
  | malformed =>
      have htr : (on_message store ipf mf handler .malformed).trace =
          [.reject false] := rfl
      rw [htr]
      exact ⟨by norm_num [List.chain'_cons, stepRank], by decide, by decide,
        fun hmem => absurd hmem (by decide)⟩
  | obj fields =>
      by_cases hid : ((List.lookup "event_id" fields).getD "") = ""
      · have htr : (on_message store ipf mf handler (.obj fields)).trace =
            [.parse, .reject false] := by
          simp [on_message, hid]
        rw [htr]
        exact ⟨by norm_num [List.chain'_cons, stepRank], by decide, by decide,
          fun hmem => absurd hmem (by decide)⟩
      · cases ipf with
        | true =>
            have htr : (on_message store true mf handler (.obj fields)).trace
                = [.parse, .dedupeCheck, .reject true] := by
              simp [on_message, hid]
            rw [htr]
            exact ⟨by norm_num [List.chain'_cons, stepRank], by decide, by decide,
              fun hmem => absurd hmem (by decide)⟩
        | false =>
            by_cases hdup :
                is_processed store ((List.lookup "event_id" fields).getD "")
                  = true
            · have htr : (on_message store false mf handler
                  (.obj fields)).trace = [.parse, .dedupeCheck, .ack] := by
                simp [on_message, hid, hdup]
              rw [htr]
              exact ⟨by norm_num [List.chain'_cons, stepRank], by decide, by decide,
                fun hmem => absurd hmem (by decide)⟩
            · rcases hh : handler fields with e | v
              · have htr : (on_message store false mf handler
                    (.obj fields)).trace =
                    [.parse, .dedupeCheck, .handlerInvoke, .reject true] := by
                  simp [on_message, hid, hdup, hh]
                rw [htr]
                exact ⟨by norm_num [List.chain'_cons, stepRank], by decide, by decide,
                  fun hmem => absurd hmem (by decide)⟩
              · cases v
                cases mf with
                | true =>
                    have htr : (on_message store false true handler
                        (.obj fields)).trace =
                        [.parse, .dedupeCheck, .handlerInvoke,
                          .markProcessed, .reject true] := by
                      simp [on_message, hid, hdup, hh]
                    rw [htr]
                    exact ⟨by norm_num [List.chain'_cons, stepRank], by decide, by decide,
                      fun _ => ⟨fields, rfl, hh⟩⟩
                | false =>
                    have htr : (on_message store false false handler
                        (.obj fields)).trace =
                        [.parse, .dedupeCheck, .handlerInvoke,
                          .markProcessed, .ack] := by
                      simp [on_message, hid, hdup, hh]
                    rw [htr]
                    exact ⟨by norm_num [List.chain'_cons, stepRank], by decide, by decide,
                      fun _ => ⟨fields, rfl, hh⟩⟩

/-- Witness for C6 at a concrete successful delivery. -/
theorem on_message_sequential_witness :
    List.Chain' (fun a b => stepRank a < stepRank b)
      (on_message [] false false (fun _ => .ok ())
        (.obj [("event_id", "e1")])).trace ∧
    marksAfterHandler false (on_message [] false false (fun _ => .ok ())
      (.obj [("event_id", "e1")])).trace = true ∧
    noMarkAfterAck (on_message [] false false (fun _ => .ok ())
      (.obj [("event_id", "e1")])).trace = true ∧
    (Step.markProcessed ∈ (on_message [] false false (fun _ => .ok ())
        (.obj [("event_id", "e1")])).trace →
      ∃ fields, (MessageBody.obj [("event_id", "e1")]) = .obj fields ∧
        (fun _ => (.ok () : Except Unit Unit)) fields = .ok ()) :=
  on_message_sequential [] false false (fun _ => .ok ())
    (.obj [("event_id", "e1")])

/-- Claim C7 counterexample: a concrete delivered body that is invalid
UTF-8 — hence not valid JSON — raises `UnicodeDecodeError` out of
`message.body.decode()`, lands in the generic `except Exception` branch and
is rejected WITH requeue: redelivery is requested, contradicting the claim.
The handler is still never invoked. -/
theorem poison_claim_cex :
    (on_message [] false false (fun _ => .ok ()) .undecodable).trace
      = [.reject true] ∧
    Step.reject false ∉
      (on_message [] false false (fun _ => .ok ()) .undecodable).trace ∧
    handlerCount (on_message [] false false (fun _ => .ok ())
      .undecodable).trace = 0 :=
  ⟨rfl, by decide, rfl⟩

/-- Claim C7 (amended): a delivered message whose body decodes as UTF-8 but
is not valid JSON is rejected without requeue and the registered handler is
never invoked; a body that is not valid UTF-8 instead raises
`UnicodeDecodeError` into the generic exception branch and is rejected WITH
requeue (redelivery is requested), also without the handler ever being
invoked. -/
theorem poison_rejected (store : List String) (ipf mf : Bool)
    (handler : List (String × String) → Except Unit Unit) :
    ((on_message store ipf mf handler .malformed).trace = [.reject false] ∧
     handlerCount (on_message store ipf mf handler .malformed).trace = 0 ∧
     Step.reject true ∉ (on_message store ipf mf handler .malformed).trace ∧
     Step.ack ∉ (on_message store ipf mf handler .malformed).trace) ∧
    ((on_message store ipf mf handler .undecodable).trace = [.reject true] ∧
     handlerCount (on_message store ipf mf handler .undecodable).trace = 0 ∧
     Step.reject false ∉
       (on_message store ipf mf handler .undecodable).trace ∧
     Step.ack ∉ (on_message store ipf mf handler .undecodable).trace) := by
  have htr1 : (on_message store ipf mf handler .malformed).trace =
      [.reject false] := rfl
  have htr2 : (on_message store ipf mf handler .undecodable).trace =
      [.reject true] := rfl
  rw [htr1, htr2]
  exact ⟨⟨rfl, rfl, by decide, by decide⟩, ⟨rfl, rfl, by decide, by decide⟩⟩

/-- Claim C9: constructing an `EODHDAPIClient` with an empty or missing
`api_key` raises `ValueError` (per the constructor, `if not api_key:` fires
for `None` — the docstring's "missing" key — and for the empty string), and
for every non-empty `api_key` string the constructor succeeds and stores
the key unchanged in the `api_key` attribute. -/
theorem eodhd_api_key_validation (k : Option String) (s : String)
    (hs : s ≠ "") :
    (EODHDAPIClient_init k = .error .valueError ↔
      k = none ∨ k = some "") ∧
    EODHDAPIClient_init (some s) = .ok s := by
  constructor
  · cases k with
    | none => simp [EODHDAPIClient_init]
    | some t =>
        by_cases ht : t = ""
        · subst ht
          simp [EODHDAPIClient_init]
        · simp [EODHDAPIClient_init, ht]
  · simp [EODHDAPIClient_init, hs]

/-- Witness for C9 at a concrete non-empty key. -/
theorem eodhd_api_key_validation_witness :
    (EODHDAPIClient_init (some "demo") = .error .valueError ↔
      some "demo" = none ∨ some "demo" = some "") ∧
    EODHDAPIClient_init (some "demo") = .ok "demo" :=
  eodhd_api_key_validation (some "demo") "demo" (by decide)

/-- Claim C10: `RabbitMQEventBusAdapter.subscribe` records the pair
`(event_name, handler)` in the subscriptions list only after the broker
consume operation succeeds; if starting consumption raises a broker error,
the error is re-raised and the subscriptions list is unchanged. -/
theorem subscribe_appends_after_consume (subscriptions : List (String × Nat))
    (event_name : String) (handler e : Nat) :
    subscribe (.ok ()) (.error e) subscriptions event_name handler =
      (.error e, subscriptions) ∧
    subscribe (.ok ()) (.ok ()) subscriptions event_name handler =
      (.ok (), subscriptions ++ [(event_name, handler)]) :=
  ⟨rfl, rfl⟩

/-- Claim C3: if the underlying HTTP call raises a transport error on every
attempt, `request` raises after exactly `max_retries` underlying attempts,
never more, and the error raised is the aggregate retry-exhaustion error
(`tenacity.RetryError`) wrapping the last underlying exception. -/
theorem retry_exhaustion {α : Type} (m : Nat) (b : ℚ) (ids : Nat → Nat)
    (o : Nat → Except ReqError α) (hm : 1 ≤ m)
    (hfail : ∀ i, 1 ≤ i → i ≤ m → o i = .error (.transportError (ids i))) :
    (request m b o).1 = .retryError (.transportError (ids m)) ∧
    attemptCount (request m b o).2 = m := by
  have h := retryLoop_all_fail b o (fun i => .transportError (ids i)) (m - 1) 1
    (fun i hi1 hi2 => ⟨hfail i hi1 (by omega), rfl⟩)
  have e1 : 1 + (m - 1) = m := by omega
  have e2 : m - 1 + 1 = m := by omega
  rw [e1, e2] at h
  simpa only [request] using h

/-- Witness for C3: two transport failures with `max_retries = 2`. -/
theorem retry_exhaustion_witness :
    (request 2 1 (fun i =>
      (.error (.transportError i) : Except ReqError Nat))).1 =
      .retryError (.transportError 2) ∧
    attemptCount (request 2 1 (fun i =>
      (.error (.transportError i) : Except ReqError Nat))).2 = 2 :=
  retry_exhaustion 2 1 (fun i => i)
    (fun i => (.error (.transportError i) : Except ReqError Nat))
    (by omega) (fun i h1 h2 => rfl)

/-- Claim C4: for every `k < max_retries`, if the underlying HTTP call
raises a transport error on the first `k` attempts and succeeds on attempt
`k + 1`, then `request` returns the successful result and the underlying
call is invoked exactly `k + 1` times. -/
theorem retry_count_bound {α : Type} (m k : Nat) (b : ℚ) (v : α)
    (o : Nat → Except ReqError α) (hk : k < m)
    (hfail : ∀ i, 1 ≤ i → i ≤ k → ∃ t, o i = .error (.transportError t))
    (hok : o (k + 1) = .ok v) :
    (request m b o).1 = .ok v ∧
    attemptCount (request m b o).2 = k + 1 := by
  have h := retryLoop_succeeds b o v k (m - 1) 1 (by omega)
    (fun i hi1 hi2 => by
      obtain ⟨t, ht⟩ := hfail i hi1 (by omega)
      exact ⟨.transportError t, ht, rfl⟩)
    (by rw [show 1 + k = k + 1 by omega]; exact hok)
  simpa only [request] using h

/-- Witness for C4: one transport failure then success, `max_retries = 3`. -/
theorem retry_count_bound_witness :
    (request 3 1 (fun i => if i = 1
      then (.error (.transportError 0) : Except ReqError Nat)
      else .ok 7)).1 = .ok 7 ∧
    attemptCount (request 3 1 (fun i => if i = 1
      then (.error (.transportError 0) : Except ReqError Nat)
      else .ok 7)).2 = 1 + 1 :=
  retry_count_bound 3 1 1 7
    (fun i => if i = 1
      then (.error (.transportError 0) : Except ReqError Nat)
      else .ok 7)
    (by omega)
    (fun i h1 h2 => by
      have hi : i = 1 := by omega
      subst hi
      exact ⟨0, rfl⟩)
    rfl

/-- Claim C2: for every request whose HTTP responses all carry a status
at least 400, `request` surfaces a status error (`ClientResponseError`,
a constructor distinct from transport errors) carrying that exact status
code, wrapped in the retry-exhaustion error after exactly the configured
number of attempts — status errors are retried only through the configured
policy and never past it. -/
theorem status_error_preserved {α : Type} (m s : Nat) (b : ℚ)
    (bodies : Nat → α) (resp : Nat → HTTPOutcome α)
    (hm : 1 ≤ m) (hs : 400 ≤ s)
    (hresp : ∀ i, 1 ≤ i → i ≤ m → resp i = .response s (bodies i)) :
    (request m b (fun i => request_once (resp i))).1 =
      .retryError (.clientResponseError s) ∧
    (∀ info, (ReqError.clientResponseError s) ≠ .transportError info) ∧
    attemptCount (request m b (fun i => request_once (resp i))).2 = m := by
  have hall : ∀ i, 1 ≤ i → i ≤ 1 + (m - 1) →
      (fun i => request_once (resp i)) i =
        .error ((fun _ : Nat => ReqError.clientResponseError s) i) ∧
      isClientError ((fun _ : Nat => ReqError.clientResponseError s) i)
        = true := by
    intro i hi1 hi2
    refine ⟨?_, rfl⟩
    show request_once (resp i) = .error (.clientResponseError s)
    rw [hresp i hi1 (by omega)]
    simp [request_once, hs]
  have h := retryLoop_all_fail b (fun i => request_once (resp i))
    (fun _ => .clientResponseError s) (m - 1) 1 hall
  have e2 : m - 1 + 1 = m := by omega
  rw [e2] at h
  exact ⟨by simpa only [request] using h.1,
    fun info hcontra => ReqError.noConfusion hcontra,
    by simpa only [request] using h.2⟩

/-- Witness for C2: two responses with status 404, `max_retries = 2`. -/
theorem status_error_preserved_witness :
    (request 2 1 (fun i =>
      request_once ((fun _ : Nat => HTTPOutcome.response 404 (0 : Nat)) i))).1
      = .retryError (.clientResponseError 404) ∧
    (∀ info, (ReqError.clientResponseError 404) ≠ .transportError info) ∧
    attemptCount (request 2 1 (fun i =>
      request_once ((fun _ : Nat =>
        HTTPOutcome.response 404 (0 : Nat)) i))).2 = 2 :=
  status_error_preserved 2 404 1 (fun _ => (0 : Nat))
    (fun _ => HTTPOutcome.response 404 (0 : Nat))
    (by omega) (by omega) (fun i h1 h2 => rfl)

/-- Claim C5 counterexample: with `backoff_start = 1` and `max_retries = 2`
and a transport error on every attempt, the wait slept before attempt 2 is
`1 * 2 ^ (2 - 2) = 1` second, not `backoff_start * 2 ^ (k - 1) = 2` seconds
as the claim states for attempt `k = 2`. -/
theorem backoff_claim_cex :
    sleepBefore 2 (request 2 1 (fun _ =>
      (.error (.transportError 0) : Except ReqError Nat))).2
      = some ((1 : ℚ) * 2 ^ (2 - 2)) ∧
    sleepBefore 2 (request 2 1 (fun _ =>
      (.error (.transportError 0) : Except ReqError Nat))).2
      ≠ some ((1 : ℚ) * 2 ^ (2 - 1)) := by
  have h := retryLoop_sleepBefore (α := Nat) 1
    (fun _ => (.error (.transportError 0) : Except ReqError Nat))
    (2 - 1) 1 2 (by omega) (by omega)
    (fun i h1 h2 => ⟨.transportError 0, rfl, rfl⟩)
  constructor
  · simp only [request]
    rw [h]
    norm_num [wait_exponential]
  · simp only [request]
    rw [h]
    simp only [wait_exponential, ne_eq, Option.some.injEq]
    norm_num

/-- Claim C5 (amended): for every attempt `k ≥ 2` reached by the retry loop,
the wait slept before attempt `k` equals `backoff_start * 2 ^ (k - 2)`
seconds (tenacity's `wait_exponential(multiplier=backoff_start)` evaluated
at the previous attempt's number), and every sleep is immediately preceded
by the `before_sleep_log` retry log record. -/
theorem backoff_schedule {α : Type} (m k : Nat) (b : ℚ)
    (o : Nat → Except ReqError α) (hk : 2 ≤ k) (hkm : k ≤ m)
    (hfail : ∀ i, 1 ≤ i → i < k →
      ∃ e, o i = .error e ∧ isClientError e = true) :
    sleepBefore k (request m b o).2 = some (b * 2 ^ (k - 2)) ∧
    sleepsLogged (request m b o).2 = true := by
  constructor
  · have h := retryLoop_sleepBefore b o (m - 1) 1 k (by omega) (by omega)
      hfail
    simp only [request]
    rw [h]
    have e1 : k - 1 - 1 = k - 2 := by omega
    simp [wait_exponential, e1]
  · simp only [request]
    exact retryLoop_sleepsLogged b o (m - 1) 1

/-- Witness for the amended C5: `backoff_start = 1`, `max_retries = 3`,
transport errors throughout; the sleep before attempt 2 is
`1 * 2 ^ 0 = 1` second. -/
theorem backoff_schedule_witness :
    sleepBefore 2 (request 3 1 (fun _ =>
      (.error (.transportError 0) : Except ReqError Nat))).2
      = some ((1 : ℚ) * 2 ^ (2 - 2)) ∧
    sleepsLogged (request 3 1 (fun _ =>
      (.error (.transportError 0) : Except ReqError Nat))).2 = true :=
  backoff_schedule 3 2 1
    (fun _ => (.error (.transportError 0) : Except ReqError Nat))
    (by omega) (by omega)
    (fun i h1 h2 => ⟨.transportError 0, rfl, rfl⟩)

end GoldMetrics
